import Mathlib

/-!
# Motor temperature predictor front end

A shallow embedding of the logic of the React front end
(`frontend/src/App.jsx`, `components/PredictionForm.jsx`,
`components/TempGauge.jsx`, `components/ResultDisplay.jsx`) and the
properties of it that the specification states.

Conventions of the embedding:

* a JavaScript number is a `JSNum`: `NaN`, a signed infinity, or a finite
  value kept as the exact decimal `mant * 10 ^ exp` that the text denotes
  (rounding of the decimal to binary64 is not modelled, overflow to
  an infinity is);
* a parsed JSON document is a `JSON` value, JavaScript `undefined` is
  `none : Option JSON`;
* the arc lengths of the gauges are computed in `ℚ`; the number shown in
  the gauges is computed in binary64, modelled exactly: a finite binary64
  number is a `Dyadic` `mant * 2 ^ exp`, and a product is the exact product
  rounded to the nearest binary64 number, ties to even;
* an `async` handler is split at its `await`: the part that runs up to the
  `fetch`, and the part that runs once the request has settled.
-/

namespace MotorTemp

/-! ## JavaScript values -/

/-- A finite decimal value `mant * 10 ^ exp`. -/
structure Dec where
  mant : Int
  exp : Int
  deriving DecidableEq, Repr

/-- The rational a decimal denotes. -/
def Dec.toRat (d : Dec) : ℚ := (d.mant : ℚ) * (10 : ℚ) ^ d.exp

/-- A JavaScript number. -/
inductive JSNum where
  | nan
  | inf (neg : Bool)
  | fin (d : Dec)
  deriving DecidableEq, Repr

/-- The test `Number.isFinite`. -/
def JSNum.isFinite : JSNum → Bool
  | .fin _ => true
  | _ => false

/-- A JSON document as produced by `JSON.parse` / `response.json()`.
The keys of an object are distinct; a lookup takes the first match. -/
inductive JSON where
  | null
  | bool (b : Bool)
  | num (q : ℚ)
  | str (s : String)
  | arr (items : List JSON)
  | obj (members : List (String × JSON))

/-- The errors the handlers can meet. -/
inductive JSError where
  | typeError
  | syntaxError
  deriving DecidableEq, Repr

/-- Property read `v.key` on a parsed JSON value, for a key that is not a
built-in property of strings or arrays (`success`, `error`, `timestamp`,
...): reading a property of `null` throws a `TypeError`, a primitive or an
array has no such property (`undefined`), an object yields its member. -/
def JSON.getProp (v : JSON) (key : String) : Except JSError (Option JSON) :=
  match v with
  | .null => .error .typeError
  | .obj members => .ok (members.lookup key)
  | _ => .ok none

/-- JavaScript truthiness (`ToBoolean`) of a value read from a JSON
document; `none` is `undefined`. -/
def truthy : Option JSON → Bool
  | none => false
  | some .null => false
  | some (.bool b) => b
  | some (.num q) => decide (q ≠ 0)
  | some (.str s) => s != ""
  | some (.arr _) => true
  | some (.obj _) => true

/-- The parts of the JavaScript runtime whose text output is not modelled:
`ToString` of a number and of an array. -/
structure Runtime where
  numberToString : ℚ → String
  arrayToString : List JSON → String

/-- The conversion `ToString` applied by `'...' + v`. -/
def jsToString (rt : Runtime) : Option JSON → String
  | none => "undefined"
  | some .null => "null"
  | some (.bool true) => "true"
  | some (.bool false) => "false"
  | some (.num q) => rt.numberToString q
  | some (.str s) => s
  | some (.arr items) => rt.arrayToString items
  | some (.obj _) => "[object Object]"

/-! ## `parseFloat` -/

/-- Code points removed by `TrimString`: WhiteSpace and LineTerminator. -/
def isStrWhiteSpaceChar (c : Char) : Bool :=
  let n := c.toNat
  n == 0x09 || n == 0x0A || n == 0x0B || n == 0x0C || n == 0x0D || n == 0x20 ||
  n == 0xA0 || n == 0x1680 || (0x2000 ≤ n && n ≤ 0x200A) || n == 0x2028 ||
  n == 0x2029 || n == 0x202F || n == 0x205F || n == 0x3000 || n == 0xFEFF

/-- Drops the leading white space. -/
def trimStart : List Char → List Char
  | [] => []
  | c :: cs => if isStrWhiteSpaceChar c then trimStart cs else c :: cs

/-- The value of a decimal digit. -/
def digitValue (c : Char) : Option Nat :=
  if 48 ≤ c.toNat ∧ c.toNat ≤ 57 then some (c.toNat - 48) else none

/-- Reads the longest run of decimal digits: the value read so far, the
number of digits read so far, and the rest of the text. -/
def readDigits : List Char → Nat → Nat → Nat × Nat × List Char
  | [], acc, n => (acc, n, [])
  | c :: cs, acc, n =>
    match digitValue c with
    | some d => readDigits cs (acc * 10 + d) (n + 1)
    | none => (acc, n, c :: cs)

/-- The signed digits of an exponent, `0` when there is no digit. -/
def readSignedInteger (neg : Bool) (cs : List Char) : Int :=
  match readDigits cs 0 0 with
  | (v, n, _) => if n = 0 then 0 else if neg then -(v : Int) else (v : Int)

/-- The exponent of an optional `ExponentPart` (`e` or `E`, an optional sign,
at least one digit); `0` when the text does not start with one. -/
def readExponent : List Char → Int
  | [] => 0
  | c :: cs =>
    if c = 'e' ∨ c = 'E' then
      match cs with
      | '+' :: ds => readSignedInteger false ds
      | '-' :: ds => readSignedInteger true ds
      | ds => readSignedInteger false ds
    else 0

/-- Magnitudes from `2^1024 - 2^970` on round to an infinity in binary64;
the number is written out so that it evaluates without a large power. -/
def overflowThreshold : Nat :=
  179769313486231580793728971405303415079934132710037826936173778980444968292764750946649017977587207096330286416692887910946555547851940402630657488671505820681908902000708383676273854845817711531764475730270069855571366959622842914819860834936475292719074168444365510704342711559699508093042880177904174497792

/-- Whether `m * 10 ^ e` rounds to an infinity. -/
def overflows (m : Nat) (e : Int) : Bool :=
  if 0 ≤ e then decide (overflowThreshold ≤ m * 10 ^ e.toNat)
  else decide (overflowThreshold * 10 ^ (-e).toNat ≤ m)

/-- The number with magnitude `m * 10 ^ e` and the given sign. -/
def roundMV (neg : Bool) (m : Nat) (e : Int) : JSNum :=
  if overflows m e then .inf neg
  else .fin ⟨if neg then -(m : Int) else (m : Int), e⟩

/-- The value of the longest initial part of the text that is a
`StrUnsignedDecimalLiteral` (`Infinity`, `digits . digits? exponent?`,
`. digits exponent?`, `digits exponent?`), `NaN` when there is none. -/
def strUnsignedDecimalLiteral (neg : Bool) (cs : List Char) : JSNum :=
  if "Infinity".toList.isPrefixOf cs then .inf neg
  else
    match readDigits cs 0 0 with
    | (ip, ni, r1) =>
      match r1 with
      | '.' :: r2 =>
        match readDigits r2 0 0 with
        | (fp, nf, r3) =>
          if ni = 0 ∧ nf = 0 then .nan
          else roundMV neg (ip * 10 ^ nf + fp) (readExponent r3 - (nf : Int))
      | _ => if ni = 0 then .nan else roundMV neg ip (readExponent r1)

/-- The built-in `parseFloat` on a string. -/
def parseFloat (s : String) : JSNum :=
  match trimStart s.toList with
  | '+' :: r => strUnsignedDecimalLiteral false r
  | '-' :: r => strUnsignedDecimalLiteral true r
  | r => strUnsignedDecimalLiteral false r

/-! ## The form: `formData` and the helpers on it -/

/-- The `formData` object of `App.jsx` and of `PredictionForm.jsx`: the seven
telemetry fields as raw text, in the order in which the object is built. -/
structure FormData where
  ambient : String
  coolant : String
  u_d : String
  u_q : String
  motor_speed : String
  i_d : String
  i_q : String
  deriving DecidableEq, Repr

/-- The initial `formData` (`useState`), which is also what `handleReset`
sets. -/
def emptyForm : FormData := ⟨"", "", "", "", "", "", ""⟩

/-- The literal set by `loadSampleData`. -/
def sampleForm : FormData := ⟨"25.5", "22.3", "0.45", "0.38", "1500", "12.5", "15.2"⟩

/-- The call `Object.keys(formData)`. -/
def objectKeys (_formData : FormData) : List String :=
  ["ambient", "coolant", "u_d", "u_q", "motor_speed", "i_d", "i_q"]

/-- The call `Object.values(formData)`. -/
def objectValues (formData : FormData) : List String :=
  [formData.ambient, formData.coolant, formData.u_d, formData.u_q,
   formData.motor_speed, formData.i_d, formData.i_q]

/-- The read `formData[key]`; a missing key reads `undefined`, which
`parseFloat` first turns into the text `undefined`. -/
def FormData.get (formData : FormData) (key : String) : String :=
  if key = "ambient" then formData.ambient
  else if key = "coolant" then formData.coolant
  else if key = "u_d" then formData.u_d
  else if key = "u_q" then formData.u_q
  else if key = "motor_speed" then formData.motor_speed
  else if key = "i_d" then formData.i_d
  else if key = "i_q" then formData.i_q
  else "undefined"

/-- The update `{...prev, [name]: value}` of `handleInputChange` /
`handleChange`, for the name of one of the seven inputs. -/
def FormData.set (prev : FormData) (name value : String) : FormData :=
  if name = "ambient" then { prev with ambient := value }
  else if name = "coolant" then { prev with coolant := value }
  else if name = "u_d" then { prev with u_d := value }
  else if name = "u_q" then { prev with u_q := value }
  else if name = "motor_speed" then { prev with motor_speed := value }
  else if name = "i_d" then { prev with i_d := value }
  else if name = "i_q" then { prev with i_q := value }
  else prev

/-- The test `Object.values(formData).some(value => value === '')`. -/
def hasEmptyFields (formData : FormData) : Bool :=
  (objectValues formData).any (fun value => value == "")

/-- The assignment `acc[key] = v` on an object kept as its list of own
properties in insertion order. -/
def setProp (acc : List (String × JSNum)) (key : String) (v : JSNum) :
    List (String × JSNum) :=
  if acc.any (fun p => p.1 == key) then
    acc.map (fun p => if p.1 == key then (key, v) else p)
  else acc ++ [(key, v)]

/-- The object `numericData`:
`Object.keys(formData).reduce((acc, key) => { acc[key] = parseFloat(formData[key]); return acc; }, {})`. -/
def numericData (formData : FormData) : List (String × JSNum) :=
  (objectKeys formData).foldl
    (fun acc key => setProp acc key (parseFloat (formData.get key))) []

/-- What `JSON.stringify` writes for a number: the number when it is
finite, `null` for `NaN` and the infinities. -/
def stringifyNumber : JSNum → JSON
  | .fin d => .num d.toRat
  | _ => .null

/-- The document `JSON.stringify(numericData)` denotes. -/
def jsonStringify (o : List (String × JSNum)) : JSON :=
  .obj (o.map (fun p => (p.1, stringifyNumber p.2)))

/-! ## `App.jsx`: state and handlers -/

/-- The three `useState` cells of `App`. `prediction` starts as `null`. -/
structure AppState where
  prediction : JSON
  loading : Bool
  formData : FormData

/-- The state of `App` when it is mounted. -/
def AppState.init : AppState := ⟨.null, false, emptyForm⟩

/-- A call of `fetch`. -/
structure Request where
  url : String
  method : String
  headers : List (String × String)
  body : JSON

/-- What a handler does besides updating the state: the `alert` messages
shown, the requests issued, the errors written by `console.error`. -/
structure Effects where
  alerts : List String
  requests : List Request
  console : List JSError

/-- No effect. -/
def Effects.none : Effects := ⟨[], [], []⟩

/-- One effect after the other. -/
def Effects.append (a b : Effects) : Effects :=
  ⟨a.alerts ++ b.alerts, a.requests ++ b.requests, a.console ++ b.console⟩

/-- The request built by `handleSubmit` (lines 68-74). -/
def App.predictRequest (formData : FormData) : Request :=
  ⟨"http://localhost:5000/predict", "POST",
   [("Content-Type", "application/json")], jsonStringify (numericData formData)⟩

/-- The handler `handleInputChange`. -/
def App.handleInputChange (s : AppState) (name value : String) : AppState :=
  { s with formData := s.formData.set name value }

/-- The handler `loadSampleData`. -/
def App.loadSampleData (s : AppState) : AppState :=
  { s with formData := sampleForm }

/-- The handler `handleReset`. -/
def App.handleReset (s : AppState) : AppState :=
  { s with formData := emptyForm, prediction := .null }

/-- The first part of `handleSubmit` (lines 50-74), up to the `await fetch`:
the validation, `setLoading(true)` and the request. -/
def App.handleSubmitBegin (s : AppState) : AppState × Effects :=
  if hasEmptyFields s.formData then
    (s, ⟨["Please fill in all fields"], [], []⟩)
  else
    ({ s with loading := true }, ⟨[], [App.predictRequest s.formData], []⟩)

/-- How the request settles: `fetch` rejects (the network call fails),
`response.json()` rejects (the body is not valid JSON), or the body parses
to `data`. The HTTP status is part of the response. -/
inductive FetchOutcome where
  | rejected
  | bodyNotJson (status : Nat)
  | json (status : Nat) (data : JSON)

/-- The message of the `catch` branch. -/
def App.connectMessage : String :=
  "Failed to connect to the server. Please ensure the backend is running on port 5000."

/-- The body of the `try` block after the `await fetch` (lines 68-82); an
exception is the `Except.error` result. -/
def App.tryBlock (rt : Runtime) (s : AppState) (o : FetchOutcome) :
    Except JSError (AppState × Effects) :=
  match o with
  | .rejected => .error .typeError
  | .bodyNotJson _ => .error .syntaxError
  | .json _ data =>
    match data.getProp "success" with
    | .error e => .error e
    | .ok success =>
      if truthy success then
        .ok ({ s with prediction := data }, Effects.none)
      else
        match data.getProp "error" with
        | .error e => .error e
        | .ok err => .ok (s, ⟨["Prediction failed: " ++ jsToString rt err], [], []⟩)

/-- The second part of `handleSubmit` (lines 76-88), run on the state of
the component when the request settles: the `try` block, the `catch`
branch and `finally { setLoading(false) }`. -/
def App.handleSubmitSettle (rt : Runtime) (s : AppState) (o : FetchOutcome) :
    AppState × Effects :=
  match App.tryBlock rt s o with
  | .ok (s1, eff) => ({ s1 with loading := false }, eff)
  | .error e => ({ s with loading := false }, ⟨[App.connectMessage], [], [e]⟩)

/-- A whole run of `handleSubmit` on state `s`, the network answering the
request with `net`. -/
def App.handleSubmit (rt : Runtime) (net : Request → FetchOutcome) (s : AppState) :
    AppState × Effects :=
  match App.handleSubmitBegin s with
  | (s1, eff1) =>
    match eff1.requests with
    | [] => (s1, eff1)
    | req :: _ =>
      match App.handleSubmitSettle rt s1 (net req) with
      | (s2, eff2) => (s2, eff1.append eff2)

/-! ## `PredictionForm.jsx`: state and handlers -/

/-- What `PredictionForm.handleSubmit` does: the `alert` messages shown and
the arguments with which the `onSubmit` prop is called. -/
structure FormEffects where
  alerts : List String
  onSubmitCalls : List (List (String × JSNum))

/-- The handler `handleSubmit` of `PredictionForm`; it leaves `formData` as
it is. -/
def PredictionForm.handleSubmit (formData : FormData) : FormData × FormEffects :=
  if hasEmptyFields formData then
    (formData, ⟨["Please fill in all fields"], []⟩)
  else
    (formData, ⟨[], [numericData formData]⟩)

/-- The handler `handleReset` of `PredictionForm`. -/
def PredictionForm.handleReset (_formData : FormData) : FormData := emptyForm

/-- The handler `loadSampleData` of `PredictionForm`. -/
def PredictionForm.loadSampleData (_formData : FormData) : FormData := sampleForm

/-! ## The controls of `App` and the requests in flight -/

/-- The attribute `disabled={loading}` that `App` puts on the seven inputs,
on the Load Sample and Reset buttons and on the submit button (lines 174,
187, 196 and 204). -/
def App.controlsDisabled (s : AppState) : Bool := s.loading

/-- The component together with the requests that were issued and have not
settled yet. -/
structure Dashboard where
  app : AppState
  pending : List Request

/-- What can happen: the user edits a field, presses one of the three
buttons, or the `i`-th pending request settles with outcome `o`. -/
inductive Event where
  | change (name value : String)
  | loadSample
  | reset
  | submit
  | settle (i : Nat) (o : FetchOutcome)

/-- One event through the user interface: a control that is disabled does
not fire its handler, and only a pending request can settle. `none` means
that the event cannot happen in this state. -/
def Dashboard.step (rt : Runtime) (e : Event) (st : Dashboard) : Option Dashboard :=
  match e with
  | .change name value =>
    if App.controlsDisabled st.app then none
    else some ⟨App.handleInputChange st.app name value, st.pending⟩
  | .loadSample =>
    if App.controlsDisabled st.app then none
    else some ⟨App.loadSampleData st.app, st.pending⟩
  | .reset =>
    if App.controlsDisabled st.app then none
    else some ⟨App.handleReset st.app, st.pending⟩
  | .submit =>
    if App.controlsDisabled st.app then none
    else
      match App.handleSubmitBegin st.app with
      | (s1, eff) => some ⟨s1, st.pending ++ eff.requests⟩
  | .settle i o =>
    if i < st.pending.length then
      some ⟨(App.handleSubmitSettle rt st.app o).1, st.pending.eraseIdx i⟩
    else none

/-- The states the component can reach from its mounted state through the
user interface. -/
inductive Reachable (rt : Runtime) : Dashboard → Prop where
  | init : Reachable rt ⟨AppState.init, []⟩
  | step {st st1 : Dashboard} (e : Event) :
      Reachable rt st → Dashboard.step rt e st = some st1 → Reachable rt st1

/-! ## The gauges -/

/-- The constant `percentage` of `TempGauge.jsx` (line 10):
`Math.min(Math.max(temp * 100, 0), 100)`. -/
def TempGauge.percentage (temp : ℚ) : ℚ := min (max (temp * 100) 0) 100

/-- The first number of the `strokeDasharray` of `TempGauge.jsx` (line 68):
`percentage * 5.34`. -/
def TempGauge.arcLength (temp : ℚ) : ℚ := TempGauge.percentage temp * 5.34

/-- The first number of the `strokeDasharray` of the gauge of `App.jsx`
(line 256): `prediction.prediction * 100 * 5.34`. -/
def App.arcLength (prediction : ℚ) : ℚ := prediction * 100 * 5.34

/-- The second number of both `strokeDasharray` values: the circumference
of the ring. -/
def ringCircumference : ℚ := 534

/-- The `clamp` of the specification. -/
def clamp (x lo hi : ℚ) : ℚ :=
  if x < lo then lo else if hi < x then hi else x

/-! ## The outcomes of a request -/

/-- Whether the response carries a truthy `success` flag. -/
def FetchOutcome.succeeds : FetchOutcome → Bool
  | .json _ data =>
    match data.getProp "success" with
    | .ok success => truthy success
    | .error _ => false
  | _ => false

/-! ## `toFixed` and the number shown in the gauges -/

/-- The character of a decimal digit. -/
def digitChar (d : Nat) : Char := Char.ofNat (48 + d)

/-- The decimal digits of `n`, most significant first, with `fuel` bounding
the number of digits. -/
def natDigitsAux : Nat → Nat → List Char
  | 0, _ => []
  | fuel + 1, n =>
    if n < 10 then [digitChar n] else natDigitsAux fuel (n / 10) ++ [digitChar (n % 10)]

/-- The decimal representation of `n` without leading zeroes (`0` for zero). -/
def natDigits (n : Nat) : List Char := natDigitsAux (n + 1) n

/-- The integer `n` of `toFixed` for `x ≥ 0`: the one for which
`n / 10 ^ f - x` is as close to zero as possible, the larger one when there
are two. -/
def roundedScaled (x : ℚ) (f : Nat) : Nat := ⌊x * 10 ^ f + 1 / 2⌋.toNat

/-- The text `toFixed` builds for `0 ≤ x < 10 ^ 21`: the digits of `n`,
padded with zeroes to at least `f + 1` characters, with a point before the
last `f` of them. -/
def fixedDigits (x : ℚ) (f : Nat) : List Char :=
  let m := natDigits (roundedScaled x f)
  if f = 0 then m
  else
    let m1 := if m.length ≤ f then List.replicate (f + 1 - m.length) '0' ++ m else m
    m1.take (m1.length - f) ++ '.' :: m1.drop (m1.length - f)

/-- The fixed-point text of `x.toFixed(f)`: a minus sign for `x < 0`, then
the text for the magnitude; `none` when the magnitude is at least `10 ^ 21`,
where `toFixed` hands over to `Number::toString` instead. -/
def toFixedNotation (x : ℚ) (f : Nat) : Option String :=
  if x < 0 then
    if 10 ^ 21 ≤ -x then none else some ("-" ++ String.mk (fixedDigits (-x) f))
  else
    if 10 ^ 21 ≤ x then none else some (String.mk (fixedDigits x f))

/-! ## Binary64 numbers -/

/-- A finite binary64 value `mant * 2 ^ exp`. The sign of a zero is not
kept; `toFixed` does not show it. -/
structure Dyadic where
  mant : Int
  exp : Int
  deriving DecidableEq, Repr

/-- The rational a binary64 value denotes. -/
def Dyadic.toRat (d : Dyadic) : ℚ := (d.mant : ℚ) * (2 : ℚ) ^ d.exp

/-- A binary64 number: `NaN`, a signed infinity, or a finite value. -/
inductive F64 where
  | nan
  | inf (neg : Bool)
  | fin (d : Dyadic)
  deriving DecidableEq, Repr

/-- The number of halvings that bring `n` below `2`, with `fuel` bounding
them. -/
def log2Aux : Nat → Nat → Nat
  | 0, _ => 0
  | fuel + 1, n => if n < 2 then 0 else log2Aux fuel (n / 2) + 1

/-- The integer part of the binary logarithm of `n` (`0` for `n = 0`). -/
def log2Floor (n : Nat) : Nat := log2Aux n n

/-- The binary exponent of the positive ratio `a / b`: the `e` with
`2 ^ e ≤ a / b < 2 ^ (e + 1)`. -/
def binaryExponent (a b : Nat) : Int :=
  let e0 : Int := (log2Floor a : Int) - (log2Floor b : Int)
  let ge : Bool :=
    if 0 ≤ e0 then decide (b * 2 ^ e0.toNat ≤ a) else decide (b ≤ a * 2 ^ (-e0).toNat)
  if ge then e0 else e0 - 1

/-- The integer nearest to `N / D`, the even one when two are equally
near. -/
def roundHalfEven (N D : Nat) : Nat :=
  let f := N / D
  let r := N % D
  if 2 * r < D then f else if D < 2 * r then f + 1 else if f % 2 = 0 then f else f + 1

/-- The binary64 number nearest to the ratio `a / b` (`b > 0`) with the given
sign, ties to even: 53 significant bits, the least exponent `-1074`, an
infinity from `2 ^ 1024` on. -/
def roundRatio (neg : Bool) (a b : Nat) : F64 :=
  if a = 0 then .fin ⟨0, 0⟩
  else
    let qe : Int := max (binaryExponent a b - 52) (-1074)
    let n : Nat :=
      if qe ≤ 0 then roundHalfEven (a * 2 ^ (-qe).toNat) b
      else roundHalfEven a (b * 2 ^ qe.toNat)
    let n1 : Nat := if n = 2 ^ 53 then 2 ^ 52 else n
    let qe1 : Int := if n = 2 ^ 53 then qe + 1 else qe
    if 971 < qe1 then .inf neg
    else .fin ⟨if neg then -(n1 : Int) else (n1 : Int), qe1⟩

/-- The binary64 number that `JSON.parse` yields for the JSON number `q`:
what `prediction.prediction` holds. -/
def F64.ofRat (q : ℚ) : F64 := roundRatio (decide (q < 0)) q.num.natAbs q.den

/-- The product `x * y` of two binary64 numbers. -/
def F64.mul : F64 → F64 → F64
  | .nan, _ => .nan
  | _, .nan => .nan
  | .inf s, .inf t => .inf (xor s t)
  | .inf s, .fin d => if d.mant = 0 then .nan else .inf (xor s (decide (d.mant < 0)))
  | .fin c, .inf t => if c.mant = 0 then .nan else .inf (xor (decide (c.mant < 0)) t)
  | .fin c, .fin d =>
    let m := c.mant * d.mant
    let e := c.exp + d.exp
    if 0 ≤ e then roundRatio (decide (m < 0)) (m.natAbs * 2 ^ e.toNat) 1
    else roundRatio (decide (m < 0)) m.natAbs (2 ^ (-e).toNat)

/-- The literal `100`. -/
def F64.hundred : F64 := .fin ⟨100, 0⟩

/-! ## `toFixed` on a binary64 number -/

/-- The digit strings of `k` digits that denote the binary64 number `x` of
integer value `X` with `len` decimal digits: pairs `(s, n)` with
`10 ^ (k - 1) ≤ s < 10 ^ k` such that `s * 10 ^ (n - k)` rounds to `x`; the
one nearest to `X` when there are two, the even one when they are equally
near. -/
def shortestCandidates (x : F64) (X len k : Nat) : List (Nat × Nat) :=
  let p := 10 ^ (len - k)
  let f := X / p
  let c1 : List (Nat × Nat) := if roundRatio false (f * p) 1 = x then [(f, len)] else []
  let c2 : List (Nat × Nat) :=
    if roundRatio false ((f + 1) * p) 1 = x then
      [if f + 1 = 10 ^ k then (10 ^ (k - 1), len + 1) else (f + 1, len)]
    else []
  match c1, c2 with
  | [a], [b] =>
    let d1 := X - f * p
    let d2 := (f + 1) * p - X
    if d1 < d2 then [a] else if d2 < d1 then [b] else if f % 2 = 0 then [a] else [b]
  | _, _ => c1 ++ c2

/-- The digit string with the least number of digits, from `k` digits on,
that denotes `x`. -/
def shortestDigits (x : F64) (X len : Nat) : Nat → Nat → Option (Nat × Nat)
  | 0, _ => none
  | fuel + 1, k =>
    match shortestCandidates x X len k with
    | c :: _ => some c
    | [] => shortestDigits x X len fuel (k + 1)

/-- The text `Number::toString` gives a finite binary64 number of integer
value `X ≥ 10 ^ 21`: the shortest digits `s` that denote it, a point after
the first digit when there are several, then `e+` and the decimal
exponent. -/
def exponentialText (X : Nat) : List Char :=
  let len := (natDigits X).length
  match shortestDigits (roundRatio false X 1) X len 17 1 with
  | none => natDigits X
  | some (s, n) =>
    match natDigits s with
    | [] => []
    | d :: rest =>
      (if rest = [] then [d] else d :: '.' :: rest) ++ ['e', '+'] ++ natDigits (n - 1)

/-- The built-in `x.toFixed(f)` for `0 ≤ f ≤ 100`: the text of `NaN` and of
the infinities, the fixed-point text below `10 ^ 21`, and from `10 ^ 21` on
the sign followed by the text of `Number::toString`. -/
def F64.toFixed (x : F64) (f : Nat) : String :=
  match x with
  | .nan => "NaN"
  | .inf false => "Infinity"
  | .inf true => "-Infinity"
  | .fin d =>
    match toFixedNotation d.toRat f with
    | some text => text
    | none =>
      String.mk ((if d.mant < 0 then ['-'] else []) ++
        exponentialText (d.mant.natAbs * 2 ^ d.exp.toNat))

/-- The number shown in the gauge of `TempGauge.jsx` (line 80):
`(temp * 100).toFixed(1)`. -/
def TempGauge.gaugeValue (temp : F64) : String :=
  F64.toFixed (F64.mul temp F64.hundred) 1

/-- The number shown in the gauge of `App.jsx` (line 268):
`(prediction.prediction * 100).toFixed(1)`. -/
def App.gaugeValue (prediction : F64) : String :=
  F64.toFixed (F64.mul prediction F64.hundred) 1

/-! ## The risk tiers -/

/-- The function `getRiskColor` of `App.jsx` (lines 91-99). -/
def App.getRiskColor (riskLevel : String) : String :=
  match riskLevel with
  | "low" => "#00ff88"
  | "normal" => "#00d9ff"
  | "warning" => "#ffa500"
  | "critical" => "#ff3366"
  | _ => "#00d9ff"

/-- The function `getRiskColor` of `TempGauge.jsx` (lines 13-21), on the
`riskLevel` of the component. -/
def TempGauge.getRiskColor (riskLevel : String) : String :=
  match riskLevel with
  | "low" => "var(--risk-low)"
  | "normal" => "var(--risk-normal)"
  | "warning" => "var(--risk-warning)"
  | "critical" => "var(--risk-critical)"
  | _ => "var(--accent-cyan)"

/-- What `getRecommendation` returns: a title and an ordered list of
actions. -/
structure Recommendation where
  title : String
  actions : List String
  deriving DecidableEq, Repr

/-- The function `getRecommendation` of `ResultDisplay.jsx` (lines 18-65). -/
def ResultDisplay.getRecommendation (riskLevel : String) : Recommendation :=
  match riskLevel with
  | "low" =>
    ⟨"Optimal Operation",
     ["Continue normal operation", "Monitor temperature trends",
      "Maintain current load levels"]⟩
  | "normal" =>
    ⟨"Normal Operation",
     ["Continue monitoring", "Schedule routine maintenance",
      "Check cooling system efficiency"]⟩
  | "warning" =>
    ⟨"Increased Monitoring",
     ["Increase monitoring frequency", "Reduce motor load if possible",
      "Inspect cooling system", "Prepare for potential maintenance"]⟩
  | "critical" =>
    ⟨"IMMEDIATE ACTION REQUIRED",
     ["STOP MOTOR IMMEDIATELY if safe to do so", "Inspect for mechanical issues",
      "Check coolant levels and circulation", "Contact maintenance team urgently",
      "Do not restart until inspected"]⟩
  | _ => ⟨"Monitor", ["Continue normal operation"]⟩

/-- The constant `recommendation` of `ResultDisplay.jsx` (line 67):
`getRecommendation(prediction.risk_level)`. A `risk_level` that is not a
string matches no `case` of the `switch`. -/
def ResultDisplay.recommendation (prediction : JSON) : Except JSError Recommendation :=
  match prediction.getProp "risk_level" with
  | .error e => .error e
  | .ok (some (.str riskLevel)) => .ok (ResultDisplay.getRecommendation riskLevel)
  | .ok _ => .ok ⟨"Monitor", ["Continue normal operation"]⟩

/-! ## Predicates used to state the properties -/

/-- At least one of the seven fields is the empty string. -/
def anyFieldEmpty (f : FormData) : Prop :=
  f.ambient = "" ∨ f.coolant = "" ∨ f.u_d = "" ∨ f.u_q = "" ∨
  f.motor_speed = "" ∨ f.i_d = "" ∨ f.i_q = ""

/-- Every value of a numeric record is a finite number. -/
def allFinite (o : List (String × JSNum)) : Prop :=
  ∀ p ∈ o, p.2.isFinite = true

/-- A runtime for evaluating the handlers on concrete inputs in which no
number and no array is converted to text. -/
def Runtime.blank : Runtime := ⟨fun _ => "", fun _ => ""⟩

/-! ## Lemmas on the form helpers -/

theorem hasEmptyFields_iff (f : FormData) :
    hasEmptyFields f = true ↔ anyFieldEmpty f := by
  simp [hasEmptyFields, objectValues, anyFieldEmpty]

theorem numericData_eq (f : FormData) :
    numericData f =
      [("ambient", parseFloat f.ambient), ("coolant", parseFloat f.coolant),
       ("u_d", parseFloat f.u_d), ("u_q", parseFloat f.u_q),
       ("motor_speed", parseFloat f.motor_speed), ("i_d", parseFloat f.i_d),
       ("i_q", parseFloat f.i_q)] := by
  rfl

theorem handleSubmitBegin_of_empty (s : AppState) (h : hasEmptyFields s.formData = true) :
    App.handleSubmitBegin s = (s, ⟨["Please fill in all fields"], [], []⟩) := by
  simp [App.handleSubmitBegin, h]

theorem handleSubmitBegin_of_filled (s : AppState) (h : hasEmptyFields s.formData = false) :
    App.handleSubmitBegin s =
      ({ s with loading := true }, ⟨[], [App.predictRequest s.formData], []⟩) := by
  simp [App.handleSubmitBegin, h]

/-! ## C1: a sample with an empty field is rejected -/

/-- C1: when at least one of the seven fields is the empty string,
`handleSubmit` of `App.jsx` issues no request and leaves the whole state
(the form fields, the stored prediction and `loading`, which therefore stays
`false`) as it was, and `handleSubmit` of `PredictionForm.jsx` never calls
`onSubmit` and leaves the form fields as they were, whatever the other fields
hold. -/
theorem C1_empty_field_rejected (rt : Runtime) (net : Request → FetchOutcome)
    (s : AppState) (f : FormData)
    (hs : anyFieldEmpty s.formData) (hf : anyFieldEmpty f) :
    (App.handleSubmit rt net s).2.requests = [] ∧
    (App.handleSubmit rt net s).1 = s ∧
    (s.loading = false → (App.handleSubmit rt net s).1.loading = false) ∧
    (App.handleSubmit rt net s).2.alerts = ["Please fill in all fields"] ∧
    (PredictionForm.handleSubmit f).2.onSubmitCalls = [] ∧
    (PredictionForm.handleSubmit f).1 = f ∧
    (PredictionForm.handleSubmit f).2.alerts = ["Please fill in all fields"] := by
  have h1 : hasEmptyFields s.formData = true := (hasEmptyFields_iff _).2 hs
  have h2 : hasEmptyFields f = true := (hasEmptyFields_iff _).2 hf
  have h3 : App.handleSubmit rt net s = (s, ⟨["Please fill in all fields"], [], []⟩) := by
    simp [App.handleSubmit, handleSubmitBegin_of_empty s h1]
  refine ⟨?_, ?_, ?_, ?_, ?_, ?_, ?_⟩
  · rw [h3]
  · rw [h3]
  · intro h; rw [h3]; exact h
  · rw [h3]
  · simp [PredictionForm.handleSubmit, h2]
  · simp [PredictionForm.handleSubmit, h2]
  · simp [PredictionForm.handleSubmit, h2]

/-- C1 at the example of the specification: `ambient` empty, the other six
fields filled, no request pending. -/
theorem C1_empty_field_rejected_witness :
    (App.handleSubmit Runtime.blank (fun _ => FetchOutcome.rejected)
        ⟨JSON.null, false, { sampleForm with ambient := "" }⟩).2.requests = [] ∧
    (App.handleSubmit Runtime.blank (fun _ => FetchOutcome.rejected)
        ⟨JSON.null, false, { sampleForm with ambient := "" }⟩).1.loading = false ∧
    (PredictionForm.handleSubmit { sampleForm with i_q := "" }).2.onSubmitCalls = [] :=
  have h := C1_empty_field_rejected Runtime.blank (fun _ => FetchOutcome.rejected)
    ⟨JSON.null, false, { sampleForm with ambient := "" }⟩ { sampleForm with i_q := "" }
    (Or.inl rfl) (Or.inr (Or.inr (Or.inr (Or.inr (Or.inr (Or.inr rfl))))))
  ⟨h.1, h.2.2.1 rfl, h.2.2.2.2.1⟩

/-! ## C2: what is sent when no field is empty -/

/-- C2, as stated, fails: with `ambient` holding `abc` (or one blank) and the
other six fields filled, `handleSubmit` of `App.jsx` issues the request and
`handleSubmit` of `PredictionForm.jsx` calls `onSubmit`, and the value of
`ambient` in the record is `NaN`, not a finite number (`null` in the request
body). -/
theorem C2_unparsable_field_is_sent :
    (App.handleSubmitBegin ⟨JSON.null, false, { sampleForm with ambient := "abc" }⟩).2.requests
      = [App.predictRequest { sampleForm with ambient := "abc" }] ∧
    (numericData { sampleForm with ambient := "abc" }).lookup "ambient" = some JSNum.nan ∧
    ¬ allFinite (numericData { sampleForm with ambient := "abc" }) ∧
    (App.predictRequest { sampleForm with ambient := "abc" }).body.getProp "ambient"
      = Except.ok (some JSON.null) ∧
    (PredictionForm.handleSubmit { sampleForm with ambient := " " }).2.onSubmitCalls
      = [numericData { sampleForm with ambient := " " }] ∧
    (numericData { sampleForm with ambient := " " }).lookup "ambient" = some JSNum.nan ∧
    ¬ allFinite (numericData { sampleForm with ambient := " " }) := by
  refine ⟨rfl, by decide, ?_, rfl, rfl, by decide, ?_⟩
  · intro h
    have := h ("ambient", JSNum.nan) (by decide)
    simp [JSNum.isFinite] at this
  · intro h
    have := h ("ambient", JSNum.nan) (by decide)
    simp [JSNum.isFinite] at this

/-- C2, amended: when no field is empty, `handleSubmit` of `App.jsx` issues
exactly one request, a POST whose body has exactly the seven keys in order,
each with what `JSON.stringify` writes for `parseFloat` of the field, and
`handleSubmit` of `PredictionForm.jsx` calls `onSubmit` exactly once with the
record of the seven keys, each with `parseFloat` of the field; a value is
finite exactly when `parseFloat` of the text is. -/
theorem C2_sent_record (s : AppState) (f : FormData)
    (hs : ¬ anyFieldEmpty s.formData) (hf : ¬ anyFieldEmpty f) :
    (App.handleSubmitBegin s).2.requests = [App.predictRequest s.formData] ∧
    (App.predictRequest s.formData).method = "POST" ∧
    (App.predictRequest s.formData).body = JSON.obj
      [("ambient", stringifyNumber (parseFloat s.formData.ambient)),
       ("coolant", stringifyNumber (parseFloat s.formData.coolant)),
       ("u_d", stringifyNumber (parseFloat s.formData.u_d)),
       ("u_q", stringifyNumber (parseFloat s.formData.u_q)),
       ("motor_speed", stringifyNumber (parseFloat s.formData.motor_speed)),
       ("i_d", stringifyNumber (parseFloat s.formData.i_d)),
       ("i_q", stringifyNumber (parseFloat s.formData.i_q))] ∧
    (PredictionForm.handleSubmit f).2.onSubmitCalls =
      [[("ambient", parseFloat f.ambient), ("coolant", parseFloat f.coolant),
        ("u_d", parseFloat f.u_d), ("u_q", parseFloat f.u_q),
        ("motor_speed", parseFloat f.motor_speed), ("i_d", parseFloat f.i_d),
        ("i_q", parseFloat f.i_q)]] ∧
    (allFinite (numericData f) ↔
      ((parseFloat f.ambient).isFinite = true ∧ (parseFloat f.coolant).isFinite = true ∧
       (parseFloat f.u_d).isFinite = true ∧ (parseFloat f.u_q).isFinite = true ∧
       (parseFloat f.motor_speed).isFinite = true ∧ (parseFloat f.i_d).isFinite = true ∧
       (parseFloat f.i_q).isFinite = true)) := by
  have h1 : hasEmptyFields s.formData = false := by
    rw [Bool.eq_false_iff]; exact fun h => hs ((hasEmptyFields_iff _).1 h)
  have h2 : hasEmptyFields f = false := by
    rw [Bool.eq_false_iff]; exact fun h => hf ((hasEmptyFields_iff _).1 h)
  refine ⟨?_, rfl, ?_, ?_, ?_⟩
  · rw [handleSubmitBegin_of_filled s h1]
  · simp [App.predictRequest, jsonStringify, numericData_eq]
  · simp [PredictionForm.handleSubmit, h2, numericData_eq]
  · simp [allFinite, numericData_eq]

/-- C2, amended, on the sample of `loadSampleData`: the seven values sent
are finite. -/
theorem C2_sent_record_witness :
    (App.handleSubmitBegin ⟨JSON.null, false, sampleForm⟩).2.requests
      = [App.predictRequest sampleForm] ∧
    (PredictionForm.handleSubmit sampleForm).2.onSubmitCalls =
      [[("ambient", JSNum.fin ⟨255, -1⟩), ("coolant", JSNum.fin ⟨223, -1⟩),
        ("u_d", JSNum.fin ⟨45, -2⟩), ("u_q", JSNum.fin ⟨38, -2⟩),
        ("motor_speed", JSNum.fin ⟨1500, 0⟩), ("i_d", JSNum.fin ⟨125, -1⟩),
        ("i_q", JSNum.fin ⟨152, -1⟩)]] ∧
    allFinite (numericData sampleForm) :=
  have h := C2_sent_record ⟨JSON.null, false, sampleForm⟩ sampleForm
    (by simp [anyFieldEmpty, sampleForm]) (by simp [anyFieldEmpty, sampleForm])
  ⟨h.1, h.2.2.2.1.trans (by decide), h.2.2.2.2.2 (by decide)⟩

/-! ## C3 to C6: how `App.handleSubmit` settles -/

theorem handleSubmitSettle_rejected (rt : Runtime) (s : AppState) :
    App.handleSubmitSettle rt s FetchOutcome.rejected =
      ({ s with loading := false }, ⟨[App.connectMessage], [], [JSError.typeError]⟩) := by
  rfl

theorem handleSubmitSettle_bodyNotJson (rt : Runtime) (s : AppState) (status : Nat) :
    App.handleSubmitSettle rt s (FetchOutcome.bodyNotJson status) =
      ({ s with loading := false }, ⟨[App.connectMessage], [], [JSError.syntaxError]⟩) := by
  rfl

theorem handleSubmitSettle_success (rt : Runtime) (s : AppState) (status : Nat)
    (data : JSON) (success : Option JSON)
    (h1 : data.getProp "success" = Except.ok success) (h2 : truthy success = true) :
    App.handleSubmitSettle rt s (FetchOutcome.json status data) =
      ({ s with prediction := data, loading := false }, Effects.none) := by
  simp [App.handleSubmitSettle, App.tryBlock, h1, h2]

theorem getProp_of_success_ok (data : JSON) (key : String) (v : Option JSON)
    (h : data.getProp "success" = Except.ok v) :
    data.getProp key = Except.ok (match data with
      | JSON.obj members => members.lookup key
      | _ => none) := by
  cases data with
  | null => cases h
  | bool b => rfl
  | num q => rfl
  | str t => rfl
  | arr items => rfl
  | obj members => rfl

theorem handleSubmitSettle_falsy (rt : Runtime) (s : AppState) (status : Nat)
    (data : JSON) (success err : Option JSON)
    (h1 : data.getProp "success" = Except.ok success) (h2 : truthy success = false)
    (h3 : data.getProp "error" = Except.ok err) :
    App.handleSubmitSettle rt s (FetchOutcome.json status data) =
      ({ s with loading := false },
       ⟨["Prediction failed: " ++ jsToString rt err], [], []⟩) := by
  simp [App.handleSubmitSettle, App.tryBlock, h1, h2, h3]

theorem handleSubmitSettle_loading (rt : Runtime) (s : AppState) (o : FetchOutcome) :
    (App.handleSubmitSettle rt s o).1.loading = false := by
  unfold App.handleSubmitSettle
  split <;> rfl

theorem handleSubmitSettle_formData (rt : Runtime) (s : AppState) (o : FetchOutcome) :
    (App.handleSubmitSettle rt s o).1.formData = s.formData := by
  unfold App.handleSubmitSettle
  split
  · rename_i s1 eff h
    have : s1.formData = s.formData := by
      unfold App.tryBlock at h
      split at h
      · cases h
      · cases h
      · split at h
        · cases h
        · split at h
          · cases h; rfl
          · split at h
            · cases h
            · cases h; rfl
    simpa using this
  · rfl

theorem handleSubmitSettle_prediction (rt : Runtime) (s : AppState) (o : FetchOutcome)
    (h : o.succeeds = false) :
    (App.handleSubmitSettle rt s o).1.prediction = s.prediction := by
  cases o with
  | rejected => rfl
  | bodyNotJson status => rfl
  | json status data =>
    cases h1 : data.getProp "success" with
    | error e => simp [App.handleSubmitSettle, App.tryBlock, h1]
    | ok success =>
      have h2 : truthy success = false := by
        simpa [FetchOutcome.succeeds, h1] using h
      have h3 := getProp_of_success_ok data "error" success h1
      rw [handleSubmitSettle_falsy rt s status data success _ h1 h2 h3]

/-- C3, as stated, fails: a response with HTTP status 500 whose body is
valid JSON with `success: true` is not treated as a transport failure:
`handleSubmit` stores the body as the prediction and shows no message. -/
theorem C3_status_500_success_is_stored :
    (App.handleSubmitSettle Runtime.blank ⟨JSON.null, true, sampleForm⟩
      (FetchOutcome.json 500 (JSON.obj [("success", JSON.bool true),
        ("prediction", JSON.num (9 / 10)), ("risk_level", JSON.str "critical")]))).1.prediction
      = JSON.obj [("success", JSON.bool true), ("prediction", JSON.num (9 / 10)),
          ("risk_level", JSON.str "critical")] ∧
    (App.handleSubmitSettle Runtime.blank ⟨JSON.null, true, sampleForm⟩
      (FetchOutcome.json 500 (JSON.obj [("success", JSON.bool true),
        ("prediction", JSON.num (9 / 10)), ("risk_level", JSON.str "critical")]))).2.alerts
      = [] := by
  exact ⟨rfl, rfl⟩

/-- C3, amended: when the network call fails or the response body is not
valid JSON (whatever the HTTP status), `handleSubmit` stores no prediction
(the stored prediction is the one from before) and shows exactly the message
that asks to ensure the backend is running; the HTTP status is never looked
at, so a response whose body is valid JSON is handled as the same body with
status 200 is. -/
theorem C3_transport_failure (rt : Runtime) (s : AppState) (status : Nat) (data : JSON) :
    (App.handleSubmitSettle rt s FetchOutcome.rejected).1.prediction = s.prediction ∧
    (App.handleSubmitSettle rt s FetchOutcome.rejected).2.alerts = [App.connectMessage] ∧
    (App.handleSubmitSettle rt s (FetchOutcome.bodyNotJson status)).1.prediction
      = s.prediction ∧
    (App.handleSubmitSettle rt s (FetchOutcome.bodyNotJson status)).2.alerts
      = [App.connectMessage] ∧
    App.connectMessage =
      "Failed to connect to the server. Please ensure the backend is running on port 5000." ∧
    App.handleSubmitSettle rt s (FetchOutcome.json status data)
      = App.handleSubmitSettle rt s (FetchOutcome.json 200 data) := by
  exact ⟨rfl, rfl, rfl, rfl, rfl, rfl⟩

/-- C4, as stated, fails: for the response `success: false, error: "out of
range"` the message shown is `Prediction failed: out of range`, which is not
the server's text alone. -/
theorem C4_message_has_prefix :
    (App.handleSubmitSettle Runtime.blank ⟨JSON.null, true, sampleForm⟩
      (FetchOutcome.json 200 (JSON.obj [("success", JSON.bool false),
        ("error", JSON.str "out of range")]))).2.alerts
      = ["Prediction failed: out of range"] ∧
    (App.handleSubmitSettle Runtime.blank ⟨JSON.null, true, sampleForm⟩
      (FetchOutcome.json 200 (JSON.obj [("success", JSON.bool false),
        ("error", JSON.str "out of range")]))).2.alerts
      ≠ ["out of range"] := by
  exact ⟨by decide, by decide⟩

/-- C4, amended: for every response whose `success` flag is falsy and whose
`error` field is the string `e`, `handleSubmit` stores no prediction (the
stored prediction is the one from before) and shows exactly one message, the
text `Prediction failed: ` followed by `e` verbatim. -/
theorem C4_remote_rejection (rt : Runtime) (s : AppState) (status : Nat) (data : JSON)
    (success : Option JSON) (e : String)
    (h1 : data.getProp "success" = Except.ok success) (h2 : truthy success = false)
    (h3 : data.getProp "error" = Except.ok (some (JSON.str e))) :
    (App.handleSubmitSettle rt s (FetchOutcome.json status data)).1.prediction
      = s.prediction ∧
    (App.handleSubmitSettle rt s (FetchOutcome.json status data)).2.alerts
      = ["Prediction failed: " ++ e] := by
  rw [handleSubmitSettle_falsy rt s status data success _ h1 h2 h3]
  exact ⟨rfl, rfl⟩

/-- C4, amended, on the example of the specification: the server answers
`success: false, error: "out of range"`. -/
theorem C4_remote_rejection_witness :
    (App.handleSubmitSettle Runtime.blank ⟨JSON.null, true, sampleForm⟩
      (FetchOutcome.json 200 (JSON.obj [("success", JSON.bool false),
        ("error", JSON.str "out of range")]))).1.prediction = JSON.null ∧
    (App.handleSubmitSettle Runtime.blank ⟨JSON.null, true, sampleForm⟩
      (FetchOutcome.json 200 (JSON.obj [("success", JSON.bool false),
        ("error", JSON.str "out of range")]))).2.alerts
      = ["Prediction failed: " ++ "out of range"] :=
  C4_remote_rejection Runtime.blank ⟨JSON.null, true, sampleForm⟩ 200
    (JSON.obj [("success", JSON.bool false), ("error", JSON.str "out of range")])
    (some (JSON.bool false)) "out of range" rfl rfl rfl

theorem handleSubmit_of_filled (rt : Runtime) (net : Request → FetchOutcome) (s : AppState)
    (h : hasEmptyFields s.formData = false) :
    App.handleSubmit rt net s =
      ((App.handleSubmitSettle rt { s with loading := true }
          (net (App.predictRequest s.formData))).1,
       Effects.append ⟨[], [App.predictRequest s.formData], []⟩
         (App.handleSubmitSettle rt { s with loading := true }
          (net (App.predictRequest s.formData))).2) := by
  simp [App.handleSubmit, handleSubmitBegin_of_filled s h]

theorem hasEmptyFields_eq_false (f : FormData) (h : ¬ anyFieldEmpty f) :
    hasEmptyFields f = false := by
  rw [Bool.eq_false_iff]
  exact fun h1 => h ((hasEmptyFields_iff _).1 h1)

/-- C5, as stated, fails: the sample of `loadSampleData` is submitted and the
server answers `success: true, prediction: 0.452, risk_level: "normal"`
without a timestamp and without the features; the prediction stored is that
body, in which `timestamp` and `input_features` are both `undefined`, so the
input features are not the submitted sample and no time of receipt was put
in. -/
theorem C5_no_client_side_defaults :
    (App.handleSubmit Runtime.blank
      (fun _ => FetchOutcome.json 200 (JSON.obj [("success", JSON.bool true),
        ("prediction", JSON.num (452 / 1000)), ("risk_level", JSON.str "normal")]))
      ⟨JSON.null, false, sampleForm⟩).1.prediction.getProp "timestamp"
      = Except.ok none ∧
    (App.handleSubmit Runtime.blank
      (fun _ => FetchOutcome.json 200 (JSON.obj [("success", JSON.bool true),
        ("prediction", JSON.num (452 / 1000)), ("risk_level", JSON.str "normal")]))
      ⟨JSON.null, false, sampleForm⟩).1.prediction.getProp "input_features"
      = Except.ok none ∧
    (App.handleSubmit Runtime.blank
      (fun _ => FetchOutcome.json 200 (JSON.obj [("success", JSON.bool true),
        ("prediction", JSON.num (452 / 1000)), ("risk_level", JSON.str "normal")]))
      ⟨JSON.null, false, sampleForm⟩).1.prediction.getProp "input_features"
      ≠ Except.ok (some (jsonStringify (numericData sampleForm))) := by
  refine ⟨rfl, rfl, ?_⟩
  intro h
  have h1 : (Except.ok none : Except JSError (Option JSON))
      = Except.ok (some (jsonStringify (numericData sampleForm))) := h
  cases h1

/-- C5, amended: for every response whose `success` flag is truthy, the
prediction that `handleSubmit` stores is the response body exactly as it was
received: every property of it, `input_features` and `timestamp` included,
reads what the server sent and is `undefined` when the server sent none;
`handleSubmit` adds neither the submitted sample nor a time of receipt. -/
theorem C5_stored_prediction_is_response (rt : Runtime) (s : AppState) (status : Nat)
    (data : JSON) (success : Option JSON)
    (h1 : data.getProp "success" = Except.ok success) (h2 : truthy success = true) :
    (App.handleSubmitSettle rt s (FetchOutcome.json status data)).1.prediction = data ∧
    (∀ key : String,
      (App.handleSubmitSettle rt s (FetchOutcome.json status data)).1.prediction.getProp key
        = data.getProp key) ∧
    (App.handleSubmitSettle rt s (FetchOutcome.json status data)).2.alerts = [] := by
  rw [handleSubmitSettle_success rt s status data success h1 h2]
  exact ⟨rfl, fun _ => rfl, rfl⟩

/-- C5, amended, on a response that carries a timestamp and the features:
they are stored as sent. -/
theorem C5_stored_prediction_is_response_witness :
    (App.handleSubmitSettle Runtime.blank ⟨JSON.null, true, sampleForm⟩
      (FetchOutcome.json 200 (JSON.obj [("success", JSON.bool true),
        ("prediction", JSON.num (452 / 1000)), ("risk_level", JSON.str "normal"),
        ("timestamp", JSON.str "2024-01-01T10:00:00"),
        ("input_features", JSON.obj [("ambient", JSON.num (51 / 2))])]))).1.prediction.getProp
          "timestamp"
      = Except.ok (some (JSON.str "2024-01-01T10:00:00")) :=
  ((C5_stored_prediction_is_response Runtime.blank ⟨JSON.null, true, sampleForm⟩ 200
    (JSON.obj [("success", JSON.bool true),
        ("prediction", JSON.num (452 / 1000)), ("risk_level", JSON.str "normal"),
        ("timestamp", JSON.str "2024-01-01T10:00:00"),
        ("input_features", JSON.obj [("ambient", JSON.num (51 / 2))])])
    (some (JSON.bool true)) rfl rfl).2.1 "timestamp").trans rfl

/-- C6: for every submission that passes validation and every way the
request settles, `handleSubmit` of `App.jsx` issues the one request and ends
with `loading = false`, so that the controls are enabled again; and when the
response does not carry a truthy `success` flag (remote rejection, or a
thrown network or JSON error) the stored prediction and the seven form
fields are exactly what they were before the submission. -/
theorem C6_form_enabled_again (rt : Runtime) (net : Request → FetchOutcome) (s : AppState)
    (hs : ¬ anyFieldEmpty s.formData) :
    (App.handleSubmit rt net s).2.requests = [App.predictRequest s.formData] ∧
    (App.handleSubmit rt net s).1.loading = false ∧
    App.controlsDisabled (App.handleSubmit rt net s).1 = false ∧
    ((net (App.predictRequest s.formData)).succeeds = false →
      (App.handleSubmit rt net s).1.prediction = s.prediction ∧
      (App.handleSubmit rt net s).1.formData = s.formData ∧
      (App.handleSubmit rt net s).2.alerts ≠ []) := by
  have h := hasEmptyFields_eq_false _ hs
  rw [handleSubmit_of_filled rt net s h]
  refine ⟨?_, handleSubmitSettle_loading _ _ _, handleSubmitSettle_loading _ _ _, ?_⟩
  · generalize net (App.predictRequest s.formData) = o
    have : (App.handleSubmitSettle rt { s with loading := true } o).2.requests = [] := by
      unfold App.handleSubmitSettle
      split
      · rename_i s1 eff h1
        unfold App.tryBlock at h1
        split at h1
        · cases h1
        · cases h1
        · split at h1
          · cases h1
          · split at h1
            · cases h1; rfl
            · split at h1
              · cases h1
              · cases h1; rfl
      · rfl
    simp [Effects.append, this]
  · intro hfail
    refine ⟨handleSubmitSettle_prediction rt _ _ hfail, handleSubmitSettle_formData rt _ _, ?_⟩
    generalize net (App.predictRequest s.formData) = o at hfail
    cases o with
    | rejected => simp [Effects.append, handleSubmitSettle_rejected]
    | bodyNotJson status => simp [Effects.append, handleSubmitSettle_bodyNotJson]
    | json status data =>
      cases h1 : data.getProp "success" with
      | error e => simp [Effects.append, App.handleSubmitSettle, App.tryBlock, h1]
      | ok success =>
        have h2 : truthy success = false := by
          simpa [FetchOutcome.succeeds, h1] using hfail
        have h3 := getProp_of_success_ok data "error" success h1
        rw [handleSubmitSettle_falsy rt _ status data success _ h1 h2 h3]
        simp [Effects.append]

/-- C6 on the sample of `loadSampleData`, the server being unreachable. -/
theorem C6_form_enabled_again_witness :
    (App.handleSubmit Runtime.blank (fun _ => FetchOutcome.rejected)
      ⟨JSON.null, false, sampleForm⟩).1.loading = false ∧
    (App.handleSubmit Runtime.blank (fun _ => FetchOutcome.rejected)
      ⟨JSON.null, false, sampleForm⟩).1.formData = sampleForm :=
  have h := C6_form_enabled_again Runtime.blank (fun _ => FetchOutcome.rejected)
    ⟨JSON.null, false, sampleForm⟩ (by simp [anyFieldEmpty, sampleForm])
  ⟨h.2.1, (h.2.2.2 rfl).2.1⟩

/-! ## C7: at most one request in flight -/

/-- The invariant of the reachable states: at most one request is pending,
and none is while `loading` is `false`. -/
theorem step_preserves_single_request (rt : Runtime) (e : Event) (st st1 : Dashboard)
    (hlen : st.pending.length ≤ 1) (hidle : st.app.loading = false → st.pending = [])
    (hstep : Dashboard.step rt e st = some st1) :
    st1.pending.length ≤ 1 ∧ (st1.app.loading = false → st1.pending = []) := by
  cases e with
  | change name value =>
    cases hl : st.app.loading with
    | true => simp [Dashboard.step, App.controlsDisabled, hl] at hstep
    | false =>
      simp [Dashboard.step, App.controlsDisabled, hl] at hstep
      subst hstep
      simp [hidle hl]
  | loadSample =>
    cases hl : st.app.loading with
    | true => simp [Dashboard.step, App.controlsDisabled, hl] at hstep
    | false =>
      simp [Dashboard.step, App.controlsDisabled, hl] at hstep
      subst hstep
      simp [hidle hl]
  | reset =>
    cases hl : st.app.loading with
    | true => simp [Dashboard.step, App.controlsDisabled, hl] at hstep
    | false =>
      simp [Dashboard.step, App.controlsDisabled, hl] at hstep
      subst hstep
      simp [hidle hl]
  | submit =>
    cases hl : st.app.loading with
    | true => simp [Dashboard.step, App.controlsDisabled, hl] at hstep
    | false =>
      cases hf : hasEmptyFields st.app.formData with
      | true =>
        simp [Dashboard.step, App.controlsDisabled, hl,
          handleSubmitBegin_of_empty st.app hf] at hstep
        subst hstep
        simp [hidle hl]
      | false =>
        simp [Dashboard.step, App.controlsDisabled, hl,
          handleSubmitBegin_of_filled st.app hf] at hstep
        subst hstep
        simp [hidle hl]
  | settle i o =>
    by_cases hi : i < st.pending.length
    · simp [Dashboard.step, hi] at hstep
      subst hstep
      have h0 : (st.pending.eraseIdx i).length = 0 := by
        rw [List.length_eraseIdx, if_pos hi]
        omega
      have h1 : st.pending.eraseIdx i = [] := List.length_eq_zero.mp h0
      simp [h1]
    · simp [Dashboard.step, hi] at hstep

/-- C7, as stated, fails: `handleSubmit` has no guard on `loading`. Called
in a state with `loading = true` and the seven fields filled, it issues a
request again instead of leaving the state unchanged. -/
theorem C7_handleSubmit_has_no_guard :
    (App.handleSubmitBegin ⟨JSON.null, true, sampleForm⟩).2.requests
      = [App.predictRequest sampleForm] ∧
    (App.handleSubmitBegin ⟨JSON.null, true, sampleForm⟩).2.requests.length = 1 := by
  exact ⟨rfl, rfl⟩

/-- C7, amended: while a request is pending the submit button and the other
controls are disabled (`disabled={loading}`), so in every state reachable
from the mounted component through its controls at most one request is
outstanding, a request is outstanding only while `loading` is `true`, and a
submit while the button is disabled does not happen. -/
theorem C7_single_request_through_controls (rt : Runtime) (st : Dashboard)
    (h : Reachable rt st) :
    st.pending.length ≤ 1 ∧
    (st.app.loading = false → st.pending = []) ∧
    (st.app.loading = true → Dashboard.step rt Event.submit st = none) := by
  have key : st.pending.length ≤ 1 ∧ (st.app.loading = false → st.pending = []) := by
    induction h with
    | init => exact ⟨by simp, fun _ => rfl⟩
    | step e _ hstep ih => exact step_preserves_single_request rt e _ _ ih.1 ih.2 hstep
  refine ⟨key.1, key.2, ?_⟩
  intro hl
  simp [Dashboard.step, App.controlsDisabled, hl]

/-- C7, amended, on the state reached by loading the sample and pressing
submit: one request is pending and a second submit cannot happen. -/
theorem C7_single_request_through_controls_witness :
    (⟨⟨JSON.null, true, sampleForm⟩, [App.predictRequest sampleForm]⟩ : Dashboard).pending.length
      ≤ 1 ∧
    Dashboard.step Runtime.blank Event.submit
      ⟨⟨JSON.null, true, sampleForm⟩, [App.predictRequest sampleForm]⟩ = none :=
  have h := C7_single_request_through_controls Runtime.blank
    ⟨⟨JSON.null, true, sampleForm⟩, [App.predictRequest sampleForm]⟩
    (Reachable.step Event.submit
      (Reachable.step Event.loadSample Reachable.init rfl) rfl)
  ⟨h.1, h.2.2 rfl⟩

/-! ## C8 to C10: the arc of the gauges -/

theorem percentage_eq_clamp (p : ℚ) :
    TempGauge.percentage p = clamp (p * 100) 0 100 := by
  unfold TempGauge.percentage clamp
  by_cases h1 : p * 100 < 0
  · rw [if_pos h1, max_eq_right h1.le, min_eq_left (by norm_num)]
  · rw [if_neg h1, max_eq_left (not_lt.mp h1)]
    by_cases h2 : 100 < p * 100
    · rw [if_pos h2, min_eq_right h2.le]
    · rw [if_neg h2, min_eq_left (not_lt.mp h2)]

theorem percentage_nonneg (p : ℚ) : 0 ≤ TempGauge.percentage p := by
  unfold TempGauge.percentage
  exact le_min (le_max_right _ _) (by norm_num)

theorem percentage_le (p : ℚ) : TempGauge.percentage p ≤ 100 := by
  unfold TempGauge.percentage
  exact min_le_right _ _

theorem percentage_mono (p q : ℚ) (h : p ≤ q) :
    TempGauge.percentage p ≤ TempGauge.percentage q := by
  unfold TempGauge.percentage
  have h1 : p * 100 ≤ q * 100 := by linarith
  exact min_le_min (max_le_max h1 le_rfl) le_rfl

/-- C8: for every prediction value `p`, the arc length that `TempGauge`
gives the progress ring is `clamp(p * 100, 0, 100) * 5.34`; it lies between
`0` and the circumference `534` inclusive, it is `0` for every `p ≤ 0` and
`534` for every `p ≥ 1` (in exact arithmetic). -/
theorem C8_tempGauge_arc_clamped (p : ℚ) :
    TempGauge.arcLength p = clamp (p * 100) 0 100 * 5.34 ∧
    0 ≤ TempGauge.arcLength p ∧
    TempGauge.arcLength p ≤ ringCircumference ∧
    ringCircumference = 534 ∧
    (p ≤ 0 → TempGauge.arcLength p = 0) ∧
    (1 ≤ p → TempGauge.arcLength p = 534) := by
  have h0 := percentage_nonneg p
  have h1 := percentage_le p
  refine ⟨?_, ?_, ?_, rfl, ?_, ?_⟩
  · rw [TempGauge.arcLength, percentage_eq_clamp]
  · unfold TempGauge.arcLength
    exact mul_nonneg h0 (by norm_num)
  · unfold TempGauge.arcLength ringCircumference
    norm_num
    linarith
  · intro hp
    have h2 : p * 100 ≤ 0 := by linarith
    unfold TempGauge.arcLength TempGauge.percentage
    rw [max_eq_right h2, min_eq_left (by norm_num)]
    norm_num
  · intro hp
    have h2 : (100 : ℚ) ≤ p * 100 := by linarith
    have h3 : (0 : ℚ) ≤ p * 100 := by linarith
    unfold TempGauge.arcLength TempGauge.percentage
    rw [max_eq_left h3, min_eq_right h2]
    norm_num

/-- C8 at `p = 1.5` and `p = -0.2`: the arcs are `534` and `0`. -/
theorem C8_tempGauge_arc_clamped_witness :
    TempGauge.arcLength 1.5 = 534 ∧ TempGauge.arcLength (-0.2) = 0 :=
  ⟨(C8_tempGauge_arc_clamped 1.5).2.2.2.2.2 (by norm_num),
   (C8_tempGauge_arc_clamped (-0.2)).2.2.2.2.1 (by norm_num)⟩

/-- C9, evaluated on the code: the gauge of the `App` view multiplies the
unclamped prediction, so `p = 1.5` gives the arc `801`, beyond the
circumference `534`, and `p = -0.2` gives the negative arc `-106.8`, where
the gauge of `TempGauge.jsx` gives `534` and `0`. -/
theorem C9_app_arc_not_clamped :
    App.arcLength 1.5 = 801 ∧ ringCircumference < App.arcLength 1.5 ∧
    App.arcLength (-0.2) = -106.8 ∧ App.arcLength (-0.2) < 0 ∧
    TempGauge.arcLength 1.5 = 534 ∧ TempGauge.arcLength (-0.2) = 0 := by
  unfold App.arcLength TempGauge.arcLength TempGauge.percentage ringCircumference
  norm_num

/-- C10: the arc length of `TempGauge` is monotonic non-decreasing in the
prediction value: for all `p ≤ q` the arc computed for `p` is at most the arc
computed for `q`; the prediction values `0`, `1` and `1.5` give `0`, `534`
and `534`. -/
theorem C10_tempGauge_arc_monotone (p q : ℚ) (h : p ≤ q) :
    TempGauge.arcLength p ≤ TempGauge.arcLength q ∧
    TempGauge.arcLength 0 = 0 ∧
    TempGauge.arcLength 1 = 534 ∧
    TempGauge.arcLength 1.5 = 534 := by
  refine ⟨?_, ?_, ?_, ?_⟩
  · unfold TempGauge.arcLength
    exact mul_le_mul_of_nonneg_right (percentage_mono p q h) (by norm_num)
  · unfold TempGauge.arcLength TempGauge.percentage
    norm_num
  · unfold TempGauge.arcLength TempGauge.percentage
    norm_num
  · unfold TempGauge.arcLength TempGauge.percentage
    norm_num

/-- C10 at `p = 0.2` and `q = 0.7`. -/
theorem C10_tempGauge_arc_monotone_witness :
    TempGauge.arcLength 0.2 ≤ TempGauge.arcLength 0.7 :=
  (C10_tempGauge_arc_monotone 0.2 0.7 (by norm_num)).1

/-! ## C11: the number shown in the gauges -/

theorem natDigitsAux_fuel (fuel n : Nat) (h : n < fuel) :
    natDigitsAux fuel n = natDigitsAux (n + 1) n := by
  induction fuel using Nat.strong_induction_on generalizing n with
  | _ fuel ih =>
    cases fuel with
    | zero => omega
    | succ k =>
      by_cases hn : n < 10
      · simp [natDigitsAux, hn]
      · have h1 : n / 10 < k := by omega
        have h2 : n / 10 < n := by omega
        simp only [natDigitsAux, hn, if_false]
        rw [ih k (by omega) (n / 10) h1, ih n (by omega) (n / 10) h2]

theorem natDigits_of_lt (n : Nat) (h : n < 10) : natDigits n = [digitChar n] := by
  simp [natDigits, natDigitsAux, h]

theorem natDigits_of_ge (n : Nat) (h : 10 ≤ n) :
    natDigits n = natDigits (n / 10) ++ [digitChar (n % 10)] := by
  have hn : ¬ n < 10 := by omega
  have h2 : n / 10 < n := by omega
  have e : natDigitsAux (n + 1) n =
      if n < 10 then [digitChar n] else natDigitsAux n (n / 10) ++ [digitChar (n % 10)] := rfl
  unfold natDigits
  rw [e, if_neg hn, natDigitsAux_fuel n (n / 10) h2]

theorem natDigits_length_pos (n : Nat) : 0 < (natDigits n).length := by
  by_cases h : n < 10
  · simp [natDigits_of_lt n h]
  · simp [natDigits_of_ge n (by omega)]

theorem fixedDigits_one (x : ℚ) :
    fixedDigits x 1 =
      natDigits (roundedScaled x 1 / 10) ++ ['.', digitChar (roundedScaled x 1 % 10)] := by
  unfold fixedDigits
  generalize roundedScaled x 1 = n
  by_cases h : n < 10
  · have h0 : n / 10 = 0 := by omega
    have h1 : n % 10 = n := by omega
    simp [natDigits_of_lt n h, h0, h1, natDigits_of_lt 0 (by omega)]
    decide
  · have hl := natDigits_length_pos (n / 10)
    rw [natDigits_of_ge n (by omega)]
    have hlen : ¬ (natDigits (n / 10) ++ [digitChar (n % 10)]).length ≤ 1 := by
      rw [List.length_append, List.length_singleton]; omega
    rw [if_neg (by decide), if_neg hlen]
    simp

theorem roundedScaled_close (x : ℚ) (h : 0 ≤ x) :
    |((roundedScaled x 1 : ℕ) : ℚ) / 10 - x| ≤ 1 / 20 := by
  unfold roundedScaled
  have h0 : (0 : ℚ) ≤ x * 10 ^ 1 + 1 / 2 := by positivity
  have hf : 0 ≤ ⌊x * 10 ^ 1 + 1 / 2⌋ := Int.floor_nonneg.mpr h0
  have hc : ((⌊x * 10 ^ 1 + 1 / 2⌋.toNat : ℕ) : ℚ) = ((⌊x * 10 ^ 1 + 1 / 2⌋ : ℤ) : ℚ) := by
    have := Int.toNat_of_nonneg hf
    exact_mod_cast this
  rw [hc]
  have h1 := Int.floor_le (x * 10 ^ 1 + 1 / 2)
  have h2 := Int.lt_floor_add_one (x * 10 ^ 1 + 1 / 2)
  rw [abs_le]
  constructor <;> linarith

theorem toFixedNotation_one_of_lt (x : ℚ) (h : |x| < 10 ^ 21) :
    toFixedNotation x 1 =
      some ((if x < 0 then "-" else "") ++
        String.mk (natDigits (roundedScaled |x| 1 / 10) ++
          ['.', digitChar (roundedScaled |x| 1 % 10)])) := by
  by_cases hx : x < 0
  · have ha : |x| = -x := abs_of_neg hx
    have h2 : ¬ ((10 : ℚ) ^ 21 ≤ -x) := by rw [← ha]; exact not_le.mpr h
    simp only [toFixedNotation, hx, h2, if_true, if_false, fixedDigits_one, ha]
  · have ha : |x| = x := abs_of_nonneg (not_lt.mp hx)
    have h2 : ¬ ((10 : ℚ) ^ 21 ≤ x) := by rw [← ha]; exact not_le.mpr h
    simp only [toFixedNotation, hx, h2, if_false, fixedDigits_one, ha]
    rfl

theorem toFixed_one_of_lt (d : Dyadic) (h : |d.toRat| < 10 ^ 21) :
    F64.toFixed (F64.fin d) 1 =
      (if d.toRat < 0 then "-" else "") ++
        String.mk (natDigits (roundedScaled |d.toRat| 1 / 10) ++
          ['.', digitChar (roundedScaled |d.toRat| 1 % 10)]) := by
  simp only [F64.toFixed, toFixedNotation_one_of_lt _ h]

theorem ofRat_div (a : ℤ) (b : ℕ) (hb : 0 < b) (h : Nat.Coprime a.natAbs b) :
    F64.ofRat ((a : ℚ) / (b : ℚ)) = roundRatio (decide (a < 0)) a.natAbs b := by
  have h1 : ((a : ℚ) / (b : ℚ)).num = a := by
    have := Rat.num_div_eq_of_coprime (a := a) (b := (b : ℤ)) (by exact_mod_cast hb)
      (by simpa using h)
    simpa using this
  have h2 : ((a : ℚ) / (b : ℚ)).den = b := by
    have := Rat.den_div_eq_of_coprime (a := a) (b := (b : ℤ)) (by exact_mod_cast hb)
      (by simpa using h)
    exact_mod_cast this
  have h3 : ((a : ℚ) / (b : ℚ) < 0) ↔ a < 0 := by
    have hb1 : (0 : ℚ) < b := by exact_mod_cast hb
    rw [div_lt_iff₀ hb1]; simp
  unfold F64.ofRat
  rw [h1, h2]
  congr 1
  simp [h3]

theorem ofRat_455 : F64.ofRat 0.455 = F64.fin ⟨8196551321814303, -54⟩ := by
  have e : (0.455 : ℚ) = ((91 : ℤ) : ℚ) / ((200 : ℕ) : ℚ) := by norm_num
  rw [e, ofRat_div 91 200 (by decide) (by decide)]
  decide

theorem ofRat_452 : F64.ofRat 0.452 = F64.fin ⟨8142508126285857, -54⟩ := by
  have e : (0.452 : ℚ) = ((113 : ℤ) : ℚ) / ((250 : ℕ) : ℚ) := by norm_num
  rw [e, ofRat_div 113 250 (by decide) (by decide)]
  decide

theorem ofRat_0015 : F64.ofRat 0.0015 = F64.fin ⟨6917529027641082, -62⟩ := by
  have e : (0.0015 : ℚ) = ((3 : ℤ) : ℚ) / ((2000 : ℕ) : ℚ) := by norm_num
  rw [e, ofRat_div 3 2000 (by decide) (by decide)]
  decide

theorem ofRat_tenPow19 : F64.ofRat (10 ^ 19) = F64.fin ⟨4882812500000000, 11⟩ := by
  have e : ((10 : ℚ) ^ 19) = ((10000000000000000000 : ℤ) : ℚ) / ((1 : ℕ) : ℚ) := by norm_num
  rw [e, ofRat_div 10000000000000000000 1 (by decide) (by simp)]
  decide

theorem gaugeValue_455 : TempGauge.gaugeValue (F64.ofRat 0.455) = "45.5" := by
  have hm : F64.mul (F64.fin ⟨8196551321814303, -54⟩) F64.hundred
      = F64.fin ⟨6403555720167424, -47⟩ := by decide
  have hv : Dyadic.toRat ⟨6403555720167424, -47⟩ = 91 / 2 := by
    norm_num [Dyadic.toRat]
  have hb : |Dyadic.toRat ⟨6403555720167424, -47⟩| < 10 ^ 21 := by
    rw [hv, abs_of_nonneg (by norm_num)]; norm_num
  have hn : roundedScaled |Dyadic.toRat ⟨6403555720167424, -47⟩| 1 = 455 := by
    unfold roundedScaled
    have h : ⌊|Dyadic.toRat ⟨6403555720167424, -47⟩| * 10 ^ 1 + 1 / 2⌋ = 455 := by
      rw [hv, abs_of_nonneg (by norm_num)]; norm_num
    rw [h]; rfl
  rw [TempGauge.gaugeValue, ofRat_455, hm, toFixed_one_of_lt _ hb, hn,
    if_neg (by rw [hv]; norm_num)]
  decide

theorem gaugeValue_452 : TempGauge.gaugeValue (F64.ofRat 0.452) = "45.2" := by
  have hm : F64.mul (F64.fin ⟨8142508126285857, -54⟩) F64.hundred
      = F64.fin ⟨6361334473660826, -47⟩ := by decide
  have hv : Dyadic.toRat ⟨6361334473660826, -47⟩ = 3180667236830413 / 70368744177664 := by
    norm_num [Dyadic.toRat]
  have hb : |Dyadic.toRat ⟨6361334473660826, -47⟩| < 10 ^ 21 := by
    rw [hv, abs_of_nonneg (by norm_num)]; norm_num
  have hn : roundedScaled |Dyadic.toRat ⟨6361334473660826, -47⟩| 1 = 452 := by
    unfold roundedScaled
    have h : ⌊|Dyadic.toRat ⟨6361334473660826, -47⟩| * 10 ^ 1 + 1 / 2⌋ = 452 := by
      rw [hv, abs_of_nonneg (by norm_num)]; norm_num
    rw [h]; rfl
  rw [TempGauge.gaugeValue, ofRat_452, hm, toFixed_one_of_lt _ hb, hn,
    if_neg (by rw [hv]; norm_num)]
  decide

/-- C11, as stated, fails: for the prediction value `p = 1e19` the binary64
product `p * 100` is `10 ^ 21`, from which on `toFixed(1)` leaves the
fixed-point notation and returns the text of `Number::toString`: both gauges
show `1e+21`, which is not a number with one decimal place. -/
theorem C11_huge_value_leaves_fixed_notation :
    F64.mul (F64.ofRat (10 ^ 19)) F64.hundred = F64.fin ⟨7629394531250000, 17⟩ ∧
    Dyadic.toRat ⟨7629394531250000, 17⟩ = 10 ^ 21 ∧
    TempGauge.gaugeValue (F64.ofRat (10 ^ 19)) = "1e+21" ∧
    App.gaugeValue (F64.ofRat (10 ^ 19)) = "1e+21" := by
  have hm : F64.mul (F64.fin ⟨4882812500000000, 11⟩) F64.hundred
      = F64.fin ⟨7629394531250000, 17⟩ := by decide
  have hv : Dyadic.toRat ⟨7629394531250000, 17⟩ = 10 ^ 21 := by
    norm_num [Dyadic.toRat]
  have hn : toFixedNotation (Dyadic.toRat ⟨7629394531250000, 17⟩) 1 = none := by
    rw [hv]
    simp only [toFixedNotation, if_neg (show ¬ ((10 : ℚ) ^ 21 < 0) by norm_num),
      if_pos (le_refl ((10 : ℚ) ^ 21))]
  have ht : F64.toFixed (F64.fin ⟨7629394531250000, 17⟩) 1 = "1e+21" := by
    simp only [F64.toFixed, hn]
    decide
  refine ⟨by rw [ofRat_tenPow19, hm], hv, ?_, ?_⟩
  · rw [TempGauge.gaugeValue, ofRat_tenPow19, hm, ht]
  · rw [App.gaugeValue, ofRat_tenPow19, hm, ht]

/-- C11, amended: for every prediction value `temp` whose binary64 product
`temp * 100` is finite with magnitude below `10 ^ 21`, the number shown in
the gauge of `TempGauge` and in the gauge of the `App` view is that product
rounded to exactly one decimal place, computed from the unclamped value: a
minus sign when the product is negative, the digits of `n / 10`, a point and
the one digit `n % 10`, where `n / 10` is within `1 / 20` of the magnitude of
the product; for `p = 0.455` the text is `45.5` and for `p = 0.452` it is
`45.2`. -/
theorem C11_gauge_value_one_decimal (temp : F64) (d : Dyadic)
    (hx : F64.mul temp F64.hundred = F64.fin d) (h : |d.toRat| < 10 ^ 21) :
    TempGauge.gaugeValue temp =
      (if d.toRat < 0 then "-" else "") ++
        String.mk (natDigits (roundedScaled |d.toRat| 1 / 10) ++
          ['.', digitChar (roundedScaled |d.toRat| 1 % 10)]) ∧
    App.gaugeValue temp = TempGauge.gaugeValue temp ∧
    abs (((roundedScaled (abs d.toRat) 1 : ℕ) : ℚ) / 10 - abs d.toRat) ≤ 1 / 20 ∧
    TempGauge.gaugeValue (F64.ofRat 0.455) = "45.5" ∧
    TempGauge.gaugeValue (F64.ofRat 0.452) = "45.2" := by
  refine ⟨?_, rfl, roundedScaled_close _ (abs_nonneg _), gaugeValue_455, gaugeValue_452⟩
  rw [TempGauge.gaugeValue, hx, toFixed_one_of_lt d h]

/-- C11, amended, at `p = 0.0015`, whose binary64 product with `100` lies
just below `0.15`: the text is `0.1`. -/
theorem C11_gauge_value_one_decimal_witness :
    F64.mul (F64.ofRat 0.0015) F64.hundred = F64.fin ⟨5404319552844595, -55⟩ ∧
    Dyadic.toRat ⟨5404319552844595, -55⟩ < 15 / 100 ∧
    TempGauge.gaugeValue (F64.ofRat 0.0015) = "0.1" ∧
    App.gaugeValue (F64.ofRat 0.0015) = "0.1" :=
  have hm : F64.mul (F64.ofRat 0.0015) F64.hundred = F64.fin ⟨5404319552844595, -55⟩ := by
    rw [ofRat_0015]; decide
  have hv : Dyadic.toRat ⟨5404319552844595, -55⟩ = 5404319552844595 / 36028797018963968 := by
    norm_num [Dyadic.toRat]
  have hb : |Dyadic.toRat ⟨5404319552844595, -55⟩| < 10 ^ 21 := by
    rw [hv, abs_of_nonneg (by norm_num)]; norm_num
  have hn : roundedScaled |Dyadic.toRat ⟨5404319552844595, -55⟩| 1 = 1 := by
    unfold roundedScaled
    have h1 : ⌊|Dyadic.toRat ⟨5404319552844595, -55⟩| * 10 ^ 1 + 1 / 2⌋ = 1 := by
      rw [hv, abs_of_nonneg (by norm_num)]; norm_num
    rw [h1]; rfl
  have h := C11_gauge_value_one_decimal (F64.ofRat 0.0015) ⟨5404319552844595, -55⟩ hm hb
  have e : TempGauge.gaugeValue (F64.ofRat 0.0015) = "0.1" := by
    rw [h.1, hn, if_neg (by rw [hv]; norm_num)]
    decide
  ⟨hm, by rw [hv]; norm_num, e, h.2.1.trans e⟩

/-! ## C12 and C13: the risk tiers -/

/-- C12, as stated, fails for the mapping of `App.jsx`: the colour of the
tier `normal` is `#00d9ff`, which is also the default colour that an unknown
tier such as `unknown` gets. -/
theorem C12_app_normal_is_default_colour :
    App.getRiskColor "normal" = "#00d9ff" ∧
    App.getRiskColor "unknown" = "#00d9ff" ∧
    App.getRiskColor "normal" = App.getRiskColor "unknown" := by
  decide

/-- C12, amended: in both mappings the four tiers `low`, `normal`, `warning`
and `critical` yield four pairwise distinct colours and every other string
yields the default colour (`#00d9ff` in `App.jsx`, `var(--accent-cyan)` in
`TempGauge.jsx`). In `TempGauge.jsx` each of the four colours differs from
the default; in `App.jsx` the colours of `low`, `warning` and `critical`
differ from the default, and the colour of `normal` is the default. -/
theorem C12_risk_colours (r : String) (h1 : r ≠ "low") (h2 : r ≠ "normal")
    (h3 : r ≠ "warning") (h4 : r ≠ "critical") :
    App.getRiskColor r = "#00d9ff" ∧
    TempGauge.getRiskColor r = "var(--accent-cyan)" ∧
    [App.getRiskColor "low", App.getRiskColor "normal", App.getRiskColor "warning",
      App.getRiskColor "critical"].Nodup ∧
    [App.getRiskColor "low", App.getRiskColor "warning", App.getRiskColor "critical",
      App.getRiskColor r].Nodup ∧
    App.getRiskColor "normal" = App.getRiskColor r ∧
    [TempGauge.getRiskColor "low", TempGauge.getRiskColor "normal",
      TempGauge.getRiskColor "warning", TempGauge.getRiskColor "critical",
      TempGauge.getRiskColor r].Nodup := by
  have ha : App.getRiskColor r = "#00d9ff" := by
    unfold App.getRiskColor
    split <;> first | rfl | contradiction
  have ht : TempGauge.getRiskColor r = "var(--accent-cyan)" := by
    unfold TempGauge.getRiskColor
    split <;> first | rfl | contradiction
  refine ⟨ha, ht, by decide, ?_, ?_, ?_⟩
  · rw [ha]; decide
  · rw [ha]; decide
  · rw [ht]; decide

/-- C12, amended, at the unknown tier `unknown`. -/
theorem C12_risk_colours_witness :
    App.getRiskColor "unknown" = "#00d9ff" ∧
    TempGauge.getRiskColor "unknown" = "var(--accent-cyan)" :=
  have h := C12_risk_colours "unknown" (by decide) (by decide) (by decide) (by decide)
  ⟨h.1, h.2.1⟩

/-- C13: `getRecommendation` is total over tier strings: for each of `low`,
`normal`, `warning` and `critical` it returns that tier's fixed title and
fixed ordered list of actions (3, 3, 4 and 5 actions), for every other
string it returns the fallback whose only action is `Continue normal
operation`, and the recommendation shown for a prediction depends on its
`risk_level` alone, not on its numeric value. -/
theorem C13_recommendation_total (r : String) (h1 : r ≠ "low") (h2 : r ≠ "normal")
    (h3 : r ≠ "warning") (h4 : r ≠ "critical") :
    ResultDisplay.getRecommendation r = ⟨"Monitor", ["Continue normal operation"]⟩ ∧
    ResultDisplay.getRecommendation "low" =
      ⟨"Optimal Operation",
       ["Continue normal operation", "Monitor temperature trends",
        "Maintain current load levels"]⟩ ∧
    ResultDisplay.getRecommendation "normal" =
      ⟨"Normal Operation",
       ["Continue monitoring", "Schedule routine maintenance",
        "Check cooling system efficiency"]⟩ ∧
    ResultDisplay.getRecommendation "warning" =
      ⟨"Increased Monitoring",
       ["Increase monitoring frequency", "Reduce motor load if possible",
        "Inspect cooling system", "Prepare for potential maintenance"]⟩ ∧
    ResultDisplay.getRecommendation "critical" =
      ⟨"IMMEDIATE ACTION REQUIRED",
       ["STOP MOTOR IMMEDIATELY if safe to do so", "Inspect for mechanical issues",
        "Check coolant levels and circulation", "Contact maintenance team urgently",
        "Do not restart until inspected"]⟩ ∧
    (ResultDisplay.getRecommendation "low").actions.length = 3 ∧
    (ResultDisplay.getRecommendation "normal").actions.length = 3 ∧
    (ResultDisplay.getRecommendation "warning").actions.length = 4 ∧
    (ResultDisplay.getRecommendation "critical").actions.length = 5 ∧
    (∀ (t : String) (p q : ℚ) (rest : List (String × JSON)),
      ResultDisplay.recommendation
          (JSON.obj (("prediction", JSON.num p) :: ("risk_level", JSON.str t) :: rest))
        = Except.ok (ResultDisplay.getRecommendation t) ∧
      ResultDisplay.recommendation
          (JSON.obj (("prediction", JSON.num q) :: ("risk_level", JSON.str t) :: rest))
        = Except.ok (ResultDisplay.getRecommendation t)) := by
  have hr : ResultDisplay.getRecommendation r = ⟨"Monitor", ["Continue normal operation"]⟩ := by
    unfold ResultDisplay.getRecommendation
    split <;> first | rfl | contradiction
  refine ⟨hr, rfl, rfl, rfl, rfl, rfl, rfl, rfl, rfl, ?_⟩
  intro t p q rest
  exact ⟨rfl, rfl⟩

/-- C13 at the unknown tier `unknown`. -/
theorem C13_recommendation_total_witness :
    ResultDisplay.getRecommendation "unknown" = ⟨"Monitor", ["Continue normal operation"]⟩ ∧
    (ResultDisplay.getRecommendation "unknown").actions = ["Continue normal operation"] :=
  have h := C13_recommendation_total "unknown" (by decide) (by decide) (by decide) (by decide)
  ⟨h.1, congrArg Recommendation.actions h.1⟩

/-! ## C14: reset -/

/-- C14: for every prior state, `handleReset` leaves all seven telemetry
fields equal to the empty string and, in `App.jsx`, the stored prediction
`null`; `loadSampleData` followed by `handleReset` leaves the sample fully
empty, and `handleReset` applied twice gives the same state as `handleReset`
applied once. `loading` is not touched. -/
theorem C14_reset_clears (s : AppState) (f : FormData) :
    objectValues (App.handleReset s).formData = ["", "", "", "", "", "", ""] ∧
    (App.handleReset s).formData = emptyForm ∧
    (App.handleReset s).prediction = JSON.null ∧
    (App.handleReset s).loading = s.loading ∧
    (App.handleReset (App.loadSampleData s)).formData = emptyForm ∧
    App.handleReset (App.loadSampleData s) = App.handleReset s ∧
    App.handleReset (App.handleReset s) = App.handleReset s ∧
    objectValues (PredictionForm.handleReset f) = ["", "", "", "", "", "", ""] ∧
    PredictionForm.handleReset (PredictionForm.loadSampleData f) = emptyForm ∧
    PredictionForm.handleReset (PredictionForm.handleReset f)
      = PredictionForm.handleReset f := by
  exact ⟨rfl, rfl, rfl, rfl, rfl, rfl, rfl, rfl, rfl, rfl⟩

end MotorTemp
